import Mathlib

/-!
Shallow embedding of the RAG-SQL-Router router workflow
(`src/workflow.py`, with the history-truncation policy of
`src/app.py:process_query`).

Messages, tool selections and the step functions `prepare_chat`, `chat`,
`dispatch_calls`, `call_tool` and `gather` are translated directly from
`RouterOutputAgentWorkflow`.  The asynchronous event loop of the source
framework is modelled as a fuel-indexed loop `runLoop`: each iteration is
one round (one reasoning call, plus the dispatch / execute / gather of the
requested tool calls).  Fallible external collaborators (the reasoning
model behind `achat_with_tools` / `get_tool_calls_from_response`, and each
tool adapter's `acall`) are modelled as functions returning an outcome
that is either a value, a raised exception (carrying the Python message
string), or an external cancellation.  An exception escaping `run()` is
modelled by the outcome `RunOutcome.raisedErr`; exhausting the fuel
(the workflow-level timeout) by `RunOutcome.timedOut`.
-/

namespace RouterWorkflow

/-- Message roles of `llama_index.core.llms.ChatMessage` as used by the
workflow. -/
inductive Role where
  | system
  | user
  | assistant
  | tool
  deriving DecidableEq, Repr

/-- A chat message: role, content, optional name, and the
`additional_kwargs` mapping (modelled as an association list of string
pairs, which is all the workflow ever stores there). -/
structure ChatMessage where
  role : Role
  content : String
  name : Option String
  additional_kwargs : List (String × String)
  deriving DecidableEq, Repr

/-- A `ToolSelection` produced by the reasoning client: call id, tool
name, and the keyword arguments (modelled as an opaque string blob, since
the workflow only forwards them to the adapter). -/
structure ToolSelection where
  tool_id : String
  tool_name : String
  tool_kwargs : String
  deriving DecidableEq, Repr

/-- Outcome of one adapter invocation `tool.acall(**kwargs)`: a returned
output, a raised exception (with its `str(e)` text), or an external
cancellation (`asyncio.CancelledError`). -/
inductive ToolOutcome where
  | ok (output : String)
  | raised (err : String)
  | cancelled
  deriving DecidableEq, Repr

/-- A tool adapter: its catalog name and its `acall` behaviour. -/
structure BaseTool where
  tool_name : String
  acall : String → ToolOutcome

/-- The workflow's `tools_dict`: a lookup from tool name to adapter. -/
abbrev ToolsDict := String → Option BaseTool

/-- The `tools_dict` built at construction from the tool list
(`{tool.metadata.name: tool for tool in self.tools}`). -/
def mkToolsDict (tools : List BaseTool) : ToolsDict :=
  fun n => tools.reverse.find? (fun t => t.tool_name == n)

/-- Outcome of one reasoning call (`achat_with_tools` followed by
`get_tool_calls_from_response`): the assistant message together with the
extracted tool calls, or a raised exception, or a cancellation. -/
inductive LLMOutcome where
  | ok (message : ChatMessage) (tool_calls : List ToolSelection)
  | raised (err : String)
  | cancelled

/-- The reasoning client: a deterministic function of the chat history.
The tool catalog and the `allow_parallel_tool_calls=False` flag are fixed
for the whole workflow, so they are absorbed into the function. -/
structure LLMClient where
  decide : List ChatMessage → LLMOutcome

/-- The fixed system prompt prepended by `prepare_chat` when the chat
history is empty (verbatim from `src/workflow.py`). -/
def systemPromptText : String :=
  "You are an intelligent assistant with access to two specialized tools:\n\n"
  ++ "1. SQL Tool: For querying structured data about people/students including names, "
  ++ "birthdays, contact info, addresses, etc. Use this for specific person lookups "
  ++ "and data analysis.\n\n"
  ++ "2. Document Tool: For searching uploaded documents about policies, procedures, "
  ++ "institutional information, etc. Use this for conceptual questions.\n\n"
  ++ "IMPORTANT GUIDELINES:\n"
  ++ "- When a user asks about a specific person\x27s information (name, birthday, phone, email, address), use ONLY the sql_tool\n"
  ++ "- When they ask about policies, procedures, or general information from documents, use ONLY the document_tool\n"
  ++ "- Make ONE targeted tool call per query - do not make multiple calls to the same tool\n"
  ++ "- Choose the most appropriate single tool based on the question type\n"
  ++ "- For mixed queries (e.g., \x27terms and conditions AND phone owner\x27), make separate tool calls for each part"

/-- Error text of the `ValueError` raised by `prepare_chat` when the
start event carries no message. -/
def missingMessageText : String := "\x27message\x27 field is required."

/-- The fixed apology returned by the `chat` step when the reasoning
call raises. -/
def chatApologyText : String :=
  "I encountered an issue processing your request. Please try rephrasing your question."

/-- The fixed text returned by the `chat` step on `asyncio.CancelledError`. -/
def chatCancelledText : String := "The operation was cancelled. Please try again."

/-- The fixed content of a tool result message when the tool call was
cancelled externally. -/
def toolCancelledText : String := "Tool execution was cancelled"

/-- The fixed apology returned by the `gather` step if gathering raises. -/
def gatherApologyText : String :=
  "I encountered an issue processing the tool responses. Please try again."

/-- The system message `prepare_chat` builds for an empty history. -/
def systemMessage : ChatMessage :=
  ⟨Role.system, systemPromptText, none, []⟩

/-- The user message `prepare_chat` appends (`ChatMessage(role="user",
content=message)`). -/
def userMessage (m : String) : ChatMessage :=
  ⟨Role.user, m, none, []⟩

/-- The happy path of `prepare_chat`: if the history is empty, append the
system message; then append the user message. -/
def prepared (chat_history : List ChatMessage) (m : String) : List ChatMessage :=
  (if chat_history.isEmpty then chat_history ++ [systemMessage] else chat_history)
    ++ [userMessage m]

/-- The `prepare_chat` step.  A `none` message models a start event
without a `message` field; the step then raises `ValueError`, which the
workflow does not catch. -/
def prepare_chat (chat_history : List ChatMessage) (message : Option String) :
    Except String (List ChatMessage) :=
  match message with
  | none => Except.error missingMessageText
  | some m => Except.ok (prepared chat_history m)

/-- Result of the `chat` step: either a `StopEvent` with the final text,
or a `GatherToolsEvent` carrying the requested tool calls. -/
inductive ChatStepOut where
  | stopEv (result : String)
  | gatherEv (tool_calls : List ToolSelection)
  deriving Repr

/-- The `chat` step: call the reasoning client; on success append the
assistant message to history and either stop (no tool calls) or hand the
tool calls over for dispatch; a raised exception or a cancellation is
caught and converted to a fixed textual stop result, leaving the history
unchanged (both raise points precede the history append in the source). -/
def chat (llm : LLMClient) (chat_history : List ChatMessage) :
    List ChatMessage × ChatStepOut :=
  match llm.decide chat_history with
  | LLMOutcome.ok ai_message tool_calls =>
      let h1 := chat_history ++ [ai_message]
      if tool_calls.isEmpty then (h1, ChatStepOut.stopEv ai_message.content)
      else (h1, ChatStepOut.gatherEv tool_calls)
  | LLMOutcome.raised _ => (chat_history, ChatStepOut.stopEv chatApologyText)
  | LLMOutcome.cancelled => (chat_history, ChatStepOut.stopEv chatCancelledText)

/-- State written by `dispatch_calls`: the recorded
`num_tool_calls` context value and the dispatched call events. -/
structure DispatchState where
  num_tool_calls : Nat
  calls : List ToolSelection

/-- The `dispatch_calls` step: record the pending-call count and send one
`ToolCallEvent` per requested call, in order. -/
def dispatch_calls (tool_calls : List ToolSelection) : DispatchState :=
  ⟨tool_calls.length, tool_calls⟩

/-- The `additional_kwargs` the workflow attaches to every tool result
message. -/
def toolKwargs (tc : ToolSelection) : List (String × String) :=
  [("tool_call_id", tc.tool_id), ("name", tc.tool_name), ("tool_used", tc.tool_name)]

/-- The `str(e)` text of a Python `KeyError` for key `k`. -/
def keyErrorText (k : String) : String := "\x27" ++ k ++ "\x27"

/-- The `call_tool` step: look the tool up in `tools_dict` and invoke it.
Every outcome — success, a missing catalog entry (`KeyError`, caught by
the `except Exception` arm), a raised adapter exception, or an external
cancellation — is converted into a tool-role `ChatMessage`; the step
never propagates an exception. -/
def call_tool (tools_dict : ToolsDict) (tc : ToolSelection) : ChatMessage :=
  match tools_dict tc.tool_name with
  | none =>
      ⟨Role.tool,
        "Error executing " ++ tc.tool_name ++ ": " ++ keyErrorText tc.tool_name,
        some tc.tool_name, toolKwargs tc⟩
  | some tool =>
      match tool.acall tc.tool_kwargs with
      | ToolOutcome.ok output =>
          ⟨Role.tool, output, some tc.tool_name, toolKwargs tc⟩
      | ToolOutcome.raised e =>
          ⟨Role.tool, "Error executing " ++ tc.tool_name ++ ": " ++ e,
            some tc.tool_name, toolKwargs tc⟩
      | ToolOutcome.cancelled =>
          ⟨Role.tool, toolCancelledText, some tc.tool_name, toolKwargs tc⟩

/-- Executing the dispatched calls: each in-flight `ToolCallEvent` is
handled independently by `call_tool`; the buffer of result messages is
listed in completion order (the model's deterministic schedule completes
them in dispatch order, one admissible schedule of the cooperative
scheduler). -/
def execute_calls (tools_dict : ToolsDict) (d : DispatchState) : List ChatMessage :=
  d.calls.map (call_tool tools_dict)

/-- `ctx.collect_events`: returns `none` (the step does not advance)
until the buffered results number exactly the recorded pending count,
then returns the buffer. -/
def collect_events (pending : Nat) (buffered : List ChatMessage) :
    Option (List ChatMessage) :=
  if buffered.length = pending then some buffered else none

/-- The `gather` step: wait for exactly `pending` results, then append
them all to the chat history.  `none` means the step has not advanced. -/
def gather (chat_history : List ChatMessage) (pending : Nat)
    (buffered : List ChatMessage) : Option (List ChatMessage) :=
  match collect_events pending buffered with
  | none => none
  | some msgs => some (chat_history ++ msgs)

/-- Outcome of a whole `run()`: a returned result string, an exception
escaping `run()`, or the workflow-level timeout. -/
inductive RunOutcome where
  | returned (text : String)
  | raisedErr (err : String)
  | timedOut
  deriving DecidableEq, Repr

/-- The conversation loop after `prepare_chat`: one fuel unit per round.
A round runs `chat`; on a stop event the result is returned, otherwise
the requested calls are dispatched, executed and gathered, and the loop
re-enters the reasoning step on the extended history.  Fuel exhaustion
models the workflow timeout. -/
def runLoop (llm : LLMClient) (tools_dict : ToolsDict) :
    Nat → List ChatMessage → List ChatMessage × RunOutcome
  | 0, chat_history => (chat_history, RunOutcome.timedOut)
  | Nat.succ fuel, chat_history =>
    match chat llm chat_history with
    | (h1, ChatStepOut.stopEv r) => (h1, RunOutcome.returned r)
    | (h1, ChatStepOut.gatherEv tool_calls) =>
      let d := dispatch_calls tool_calls
      match gather h1 d.num_tool_calls (execute_calls tools_dict d) with
      | some h2 => runLoop llm tools_dict fuel h2
      | none => (h1, RunOutcome.timedOut)

/-- The workflow entry point `run(message=...)`: prepare the chat, then
loop.  The `ValueError` of `prepare_chat` propagates out as
`raisedErr`; every other internal failure is absorbed by the steps. -/
def run (llm : LLMClient) (tools_dict : ToolsDict) (fuel : Nat)
    (chat_history : List ChatMessage) (message : Option String) :
    List ChatMessage × RunOutcome :=
  match prepare_chat chat_history message with
  | Except.error e => (chat_history, RunOutcome.raisedErr e)
  | Except.ok h1 => runLoop llm tools_dict fuel h1

/-- `reset()`: clear the chat history, whatever it was. -/
def reset (_chat_history : List ChatMessage) : List ChatMessage := []

/-- The history-truncation policy of `src/app.py:process_query`: when the
history holds more than 20 messages, keep the leading message if it is a
system message, otherwise clear the history entirely. -/
def truncate_history (chat_history : List ChatMessage) : List ChatMessage :=
  if chat_history.length > 20 then
    match chat_history with
    | [] => []
    | m :: _ => if m.role = Role.system then [m] else []
  else chat_history

/-! ## Helper lemmas -/

/-- Every message produced by `call_tool` carries the tool role,
whatever the lookup and the adapter outcome. -/
theorem call_tool_role (tools_dict : ToolsDict) (tc : ToolSelection) :
    (call_tool tools_dict tc).role = Role.tool := by
  rcases hfind : tools_dict tc.tool_name with _ | tool
  · simp [call_tool, hfind]
  · rcases hac : tool.acall tc.tool_kwargs <;> simp [call_tool, hfind, hac]

/-- Gathering the full buffer of executed calls of a round always
succeeds and appends the buffer to the history. -/
theorem gather_execute (tools_dict : ToolsDict) (h1 : List ChatMessage)
    (tcs : List ToolSelection) :
    gather h1 (dispatch_calls tcs).num_tool_calls
        (execute_calls tools_dict (dispatch_calls tcs))
      = some (h1 ++ execute_calls tools_dict (dispatch_calls tcs)) := by
  simp [gather, collect_events, execute_calls, dispatch_calls]

/-- The conversation loop never produces a raised-exception outcome:
whatever the reasoning client and the adapters do, it either returns a
text or times out. -/
theorem runLoop_no_raise (llm : LLMClient) (tools_dict : ToolsDict) :
    ∀ (fuel : Nat) (hist : List ChatMessage),
      (runLoop llm tools_dict fuel hist).2 = RunOutcome.timedOut ∨
        ∃ t, (runLoop llm tools_dict fuel hist).2 = RunOutcome.returned t := by
  intro fuel
  induction fuel with
  | zero => intro hist; exact Or.inl rfl
  | succ n ih =>
    intro hist
    rcases hc : chat llm hist with ⟨h1, out⟩
    cases out with
    | stopEv r => exact Or.inr ⟨r, by simp [runLoop, hc]⟩
    | gatherEv tcs =>
      have hstep : runLoop llm tools_dict (n + 1) hist
          = runLoop llm tools_dict n
              (h1 ++ execute_calls tools_dict (dispatch_calls tcs)) := by
        simp [runLoop, hc, gather_execute]
      rw [hstep]
      exact ih _

/-! ## Claims -/

/-- C8: for a query arriving on an empty chat history, `prepare_chat`
first prepends the fixed system message (role `system`, the verbatim
guideline text) and then appends the query as a user-role message; on a
non-empty history no system message is added and only the user message
is appended. -/
theorem c8_prepare_system_message (hist : List ChatMessage) (q : String) :
    (hist = [] →
      prepare_chat hist (some q) = Except.ok [systemMessage, userMessage q])
    ∧ (hist ≠ [] →
      prepare_chat hist (some q) = Except.ok (hist ++ [userMessage q]))
    ∧ systemMessage.role = Role.system
    ∧ systemMessage.content = systemPromptText := by
  refine ⟨?_, ?_, rfl, rfl⟩
  · rintro rfl; rfl
  · intro h
    simp [prepare_chat, prepared, h]

/-- C8 witness: on the empty history the prepared history is exactly the
fixed system message followed by the user message. -/
theorem c8_witness :
    prepare_chat [] (some "hi") = Except.ok [systemMessage, userMessage "hi"] :=
  (c8_prepare_system_message [] "hi").1 rfl

/-- C9: `reset()` clears the history, so running `reset(); run(q)` twice
in succession (the second reset acting on whatever history the first run
left behind) yields the same outcome, and in particular the same
returned text, under the deterministic reasoning-client and tool-adapter
model. -/
theorem c9_reset_run_idempotent (llm : LLMClient) (tools_dict : ToolsDict)
    (fuel : Nat) (h0 : List ChatMessage) (q : String) :
    (run llm tools_dict fuel
        (reset (run llm tools_dict fuel (reset h0) (some q)).1) (some q)).2
      = (run llm tools_dict fuel (reset h0) (some q)).2 := rfl

/-- C10: a dispatched call whose tool name is not a key of the tool
catalog does not crash the workflow: the lookup failure is caught inside
`call_tool` and converted into a tool-role message whose content is the
error text, and that message is folded into history by `gather` like any
other result. -/
theorem c10_unknown_tool (tools_dict : ToolsDict) (tc : ToolSelection)
    (hist buf1 buf2 : List ChatMessage)
    (hmiss : tools_dict tc.tool_name = none) :
    call_tool tools_dict tc
      = ⟨Role.tool,
          "Error executing " ++ tc.tool_name ++ ": " ++ keyErrorText tc.tool_name,
          some tc.tool_name, toolKwargs tc⟩
    ∧ (call_tool tools_dict tc).role = Role.tool
    ∧ gather hist (buf1 ++ call_tool tools_dict tc :: buf2).length
        (buf1 ++ call_tool tools_dict tc :: buf2)
      = some (hist ++ (buf1 ++ call_tool tools_dict tc :: buf2)) := by
  refine ⟨?_, call_tool_role _ _, by simp [gather, collect_events]⟩
  simp [call_tool, hmiss]

/-- A catalog with no tools, for concrete evaluations. -/
def tdNone : ToolsDict := fun _ => none

/-- A concrete tool selection naming a tool absent from `tdNone`. -/
def tcMystery : ToolSelection := ⟨"call-0", "mystery_tool", "args"⟩

/-- C10 witness: the unknown-tool call at a concrete input produces the
error-text tool message and is folded into history. -/
theorem c10_witness :
    call_tool tdNone tcMystery
      = ⟨Role.tool, "Error executing mystery_tool: \x27mystery_tool\x27",
          some "mystery_tool", toolKwargs tcMystery⟩
    ∧ (call_tool tdNone tcMystery).role = Role.tool
    ∧ gather [] ([] ++ call_tool tdNone tcMystery :: []).length
        ([] ++ call_tool tdNone tcMystery :: [])
      = some ([] ++ ([] ++ call_tool tdNone tcMystery :: [])) :=
  c10_unknown_tool tdNone tcMystery [] [] [] rfl

/-- C6: an externally cancelled in-flight tool call yields a tool-role
result message with the fixed cancellation content, and `gather` folds
it into history exactly as it folds any other (e.g. error) result. -/
theorem c6_cancelled_call (tools_dict : ToolsDict) (tc : ToolSelection)
    (tool : BaseTool) (hist buf1 buf2 : List ChatMessage)
    (hfind : tools_dict tc.tool_name = some tool)
    (hcancel : tool.acall tc.tool_kwargs = ToolOutcome.cancelled) :
    call_tool tools_dict tc
      = ⟨Role.tool, toolCancelledText, some tc.tool_name, toolKwargs tc⟩
    ∧ gather hist (buf1 ++ call_tool tools_dict tc :: buf2).length
        (buf1 ++ call_tool tools_dict tc :: buf2)
      = some (hist ++ (buf1 ++ call_tool tools_dict tc :: buf2)) := by
  refine ⟨?_, by simp [gather, collect_events]⟩
  simp [call_tool, hfind, hcancel]

/-- A concrete adapter whose invocation is externally cancelled. -/
def toolCancelling : BaseTool := ⟨"sql_tool", fun _ => ToolOutcome.cancelled⟩

/-- A catalog holding only the cancelling adapter. -/
def tdCancel : ToolsDict :=
  fun n => if n = "sql_tool" then some toolCancelling else none

/-- A concrete tool selection for the cancelling adapter. -/
def tcSql : ToolSelection := ⟨"call-1", "sql_tool", "select"⟩

/-- C6 witness: the cancelled call at a concrete input yields the fixed
cancellation message and is folded into history. -/
theorem c6_witness :
    call_tool tdCancel tcSql
      = ⟨Role.tool, toolCancelledText, some "sql_tool", toolKwargs tcSql⟩
    ∧ gather [] ([] ++ call_tool tdCancel tcSql :: []).length
        ([] ++ call_tool tdCancel tcSql :: [])
      = some ([] ++ ([] ++ call_tool tdCancel tcSql :: [])) :=
  c6_cancelled_call tdCancel tcSql toolCancelling [] [] [] rfl rfl

/-- C1 counterexample: a start event with no message makes `run()` raise
the `ValueError` of `prepare_chat` past the workflow boundary instead of
returning a textual result, refuting the claim that no internal failure
(including missing input) ever propagates out of `run()`. -/
theorem c1_counterexample :
    (run ⟨fun _ => LLMOutcome.raised "boom"⟩ tdNone 1 [] none).2
      = RunOutcome.raisedErr missingMessageText := rfl

/-- C1 (amended): for every start event that does carry a message,
`run()` never raises — reasoning, tool and gather failures are all
converted into a textual result, and the only non-textual outcome is the
workflow-level timeout. -/
theorem c1_no_raise_with_message (llm : LLMClient) (tools_dict : ToolsDict)
    (fuel : Nat) (hist : List ChatMessage) (m : String) :
    (run llm tools_dict fuel hist (some m)).2 = RunOutcome.timedOut ∨
      ∃ t, (run llm tools_dict fuel hist (some m)).2 = RunOutcome.returned t := by
  unfold run prepare_chat
  exact runLoop_no_raise llm tools_dict fuel (prepared hist m)

/-- C5: when the reasoning call raises, `run()` returns the fixed
generic apology text; the outcome is independent of the tool catalog (no
tool adapter is consulted), and no tool-role message is appended to the
history (any tool-role message in the final history was already in the
initial one). -/
theorem c5_reasoning_failure (llm : LLMClient) (tools_dict : ToolsDict)
    (fuel : Nat) (hist : List ChatMessage) (q e : String)
    (hraise : llm.decide (prepared hist q) = LLMOutcome.raised e) :
    run llm tools_dict (fuel + 1) hist (some q)
      = (prepared hist q, RunOutcome.returned chatApologyText)
    ∧ (∀ td2 : ToolsDict, run llm td2 (fuel + 1) hist (some q)
        = run llm tools_dict (fuel + 1) hist (some q))
    ∧ (∀ msg ∈ (run llm tools_dict (fuel + 1) hist (some q)).1,
        msg.role = Role.tool → msg ∈ hist) := by
  have hrun : ∀ td : ToolsDict, run llm td (fuel + 1) hist (some q)
      = (prepared hist q, RunOutcome.returned chatApologyText) := by
    intro td
    simp [run, prepare_chat, runLoop, chat, hraise]
  refine ⟨hrun _, fun td2 => (hrun td2).trans (hrun _).symm, ?_⟩
  rw [hrun]
  intro msg hmem hrole
  rcases List.mem_append.1 hmem with h1 | h2
  · by_cases he : hist.isEmpty
    · rw [if_pos he] at h1
      rcases List.mem_append.1 h1 with ha | hb
      · exact ha
      · have : msg = systemMessage := by simpa using hb
        rw [this] at hrole
        exact absurd hrole (by simp [systemMessage])
    · rwa [if_neg he] at h1
  · have : msg = userMessage q := by simpa using h2
    rw [this] at hrole
    exact absurd hrole (by simp [userMessage])

/-- A reasoning client whose call always raises. -/
def llmRaising : LLMClient := ⟨fun _ => LLMOutcome.raised "model unavailable"⟩

/-- C5 witness: with the always-raising reasoning client, `run` on a
concrete query returns the fixed apology, independently of the catalog,
with no tool message appended. -/
theorem c5_witness :
    run llmRaising tdNone 1 [] (some "hello")
      = (prepared [] "hello", RunOutcome.returned chatApologyText)
    ∧ (∀ td2 : ToolsDict, run llmRaising td2 1 [] (some "hello")
        = run llmRaising tdNone 1 [] (some "hello"))
    ∧ (∀ msg ∈ (run llmRaising tdNone 1 [] (some "hello")).1,
        msg.role = Role.tool → msg ∈ ([] : List ChatMessage)) :=
  c5_reasoning_failure llmRaising tdNone 0 [] "hello" "model unavailable" rfl

/-- C3: for a query answered directly (the reasoning client requests no
tool calls), starting from an empty history or a lone system message,
the final history is exactly the optional system message, the user
message and the final assistant message, and `run()` returns the
assistant message's content verbatim. -/
theorem c3_direct_answer (llm : LLMClient) (tools_dict : ToolsDict)
    (fuel : Nat) (hist : List ChatMessage) (q : String) (amsg : ChatMessage)
    (hsys : hist = [] ∨ ∃ s, hist = [s] ∧ s.role = Role.system)
    (hdec : llm.decide (prepared hist q) = LLMOutcome.ok amsg []) :
    run llm tools_dict (fuel + 1) hist (some q)
      = ((if hist.isEmpty then [systemMessage] else hist)
          ++ [userMessage q, amsg], RunOutcome.returned amsg.content) := by
  rcases hsys with rfl | ⟨s, rfl, -⟩ <;>
    · simp only [prepared, List.isEmpty_nil, List.isEmpty_cons, if_true, if_false,
        Bool.false_eq_true, List.nil_append, List.singleton_append] at hdec
      simp [run, prepare_chat, prepared, runLoop, chat, hdec]

/-- The assistant message of the direct-answer witness. -/
def amsgDirect : ChatMessage := ⟨Role.assistant, "The answer is 42.", none, []⟩

/-- A reasoning client that always answers directly. -/
def llmDirect : LLMClient := ⟨fun _ => LLMOutcome.ok amsgDirect []⟩

/-- C3 witness: a direct answer on the empty history gives exactly
system, user and assistant messages and returns the assistant content. -/
theorem c3_witness :
    run llmDirect tdNone 1 [] (some "what is it")
      = ([systemMessage, userMessage "what is it", amsgDirect],
          RunOutcome.returned "The answer is 42.") :=
  c3_direct_answer llmDirect tdNone 0 [] "what is it" amsgDirect (Or.inl rfl) rfl

/-- C2: for a round in which the reasoning step requests the calls
`tcs` (N = `tcs.length` ≥ 1): the pending-call count recorded by
`dispatch_calls` equals N; `gather` does not advance (returns `none`)
while fewer than N results have accumulated; executing the dispatched
calls yields exactly N messages, all tool-role; and the loop re-enters
the reasoning step on the history extended by exactly those N tool
messages. -/
theorem c2_pending_count_round (llm : LLMClient) (tools_dict : ToolsDict)
    (fuel : Nat) (hist h1 : List ChatMessage) (tcs : List ToolSelection)
    (hn : 1 ≤ tcs.length)
    (hchat : chat llm hist = (h1, ChatStepOut.gatherEv tcs)) :
    (dispatch_calls tcs).num_tool_calls = tcs.length
    ∧ (∀ buffered : List ChatMessage, buffered.length < tcs.length →
        gather h1 tcs.length buffered = none)
    ∧ (execute_calls tools_dict (dispatch_calls tcs)).length = tcs.length
    ∧ (∀ msg ∈ execute_calls tools_dict (dispatch_calls tcs),
        msg.role = Role.tool)
    ∧ runLoop llm tools_dict (fuel + 1) hist
        = runLoop llm tools_dict fuel
            (h1 ++ execute_calls tools_dict (dispatch_calls tcs)) := by
  refine ⟨rfl, ?_, ?_, ?_, ?_⟩
  · intro buffered hlt
    simp [gather, collect_events, Nat.ne_of_lt hlt]
  · simp [execute_calls, dispatch_calls]
  · intro msg hmem
    simp only [execute_calls, dispatch_calls, List.mem_map] at hmem
    rcases hmem with ⟨tc, -, rfl⟩
    exact call_tool_role _ _
  · simp [runLoop, hchat, gather_execute]

/-- The assistant message requesting a tool call, for the round witness. -/
def amsgCalling : ChatMessage := ⟨Role.assistant, "", none, []⟩

/-- A reasoning client that requests exactly the `tcSql` call. -/
def llmOneCall : LLMClient := ⟨fun _ => LLMOutcome.ok amsgCalling [tcSql]⟩

/-- C2 witness: a concrete single-call round records pending count 1,
gathers nothing on an empty buffer, executes exactly one tool-role
message and feeds the extended history back into the loop. -/
theorem c2_witness :
    (dispatch_calls [tcSql]).num_tool_calls = 1
    ∧ (∀ buffered : List ChatMessage, buffered.length < 1 →
        gather [amsgCalling] 1 buffered = none)
    ∧ (execute_calls tdNone (dispatch_calls [tcSql])).length = 1
    ∧ (∀ msg ∈ execute_calls tdNone (dispatch_calls [tcSql]),
        msg.role = Role.tool)
    ∧ runLoop llmOneCall tdNone 1 []
        = runLoop llmOneCall tdNone 0
            ([amsgCalling] ++ execute_calls tdNone (dispatch_calls [tcSql])) :=
  c2_pending_count_round llmOneCall tdNone 0 [] [amsgCalling] [tcSql]
    (by decide) rfl

/-- C4: in a round with at least two dispatched calls, if call `i`'s
adapter raises, then (a) result `i` is a tool message carrying the error
text as content; (b) every other position's result is exactly the
independent `call_tool` of its own request; (c) a sibling request for a
different tool name gets an identical result under any catalog that may
differ arbitrarily at the failing tool's name — the failure does not
alter the sibling; and (d) the whole buffer, failed result included, is
folded into history by `gather` like any other round. -/
theorem c4_failure_isolation (tools_dict : ToolsDict) (tcs : List ToolSelection)
    (i : Nat) (tc : ToolSelection) (tool : BaseTool) (e : String)
    (hist : List ChatMessage)
    (htwo : 2 ≤ tcs.length)
    (hi : tcs[i]? = some tc)
    (hfind : tools_dict tc.tool_name = some tool)
    (hraise : tool.acall tc.tool_kwargs = ToolOutcome.raised e) :
    (execute_calls tools_dict (dispatch_calls tcs))[i]?
      = some ⟨Role.tool, "Error executing " ++ tc.tool_name ++ ": " ++ e,
          some tc.tool_name, toolKwargs tc⟩
    ∧ (∀ j : Nat, (execute_calls tools_dict (dispatch_calls tcs))[j]?
        = (tcs[j]?).map (call_tool tools_dict))
    ∧ (∀ (td2 : ToolsDict) (tc2 : ToolSelection), tc2.tool_name ≠ tc.tool_name →
        (∀ n, n ≠ tc.tool_name → td2 n = tools_dict n) →
        call_tool td2 tc2 = call_tool tools_dict tc2)
    ∧ gather hist (dispatch_calls tcs).num_tool_calls
        (execute_calls tools_dict (dispatch_calls tcs))
      = some (hist ++ execute_calls tools_dict (dispatch_calls tcs)) := by
  refine ⟨?_, ?_, ?_, gather_execute _ _ _⟩
  · simp only [execute_calls, dispatch_calls, List.getElem?_map, hi, Option.map_some]
    simp [call_tool, hfind, hraise]
  · intro j
    simp [execute_calls, dispatch_calls, List.getElem?_map]
  · intro td2 tc2 hname hagree
    unfold call_tool
    rw [hagree tc2.tool_name hname]

/-- A concrete adapter that raises. -/
def toolRaising : BaseTool := ⟨"sql_tool", fun _ => ToolOutcome.raised "boom"⟩

/-- A concrete adapter that succeeds. -/
def toolFine : BaseTool := ⟨"document_tool", fun _ => ToolOutcome.ok "fine"⟩

/-- A catalog pairing the raising adapter with the succeeding one. -/
def tdMixed : ToolsDict :=
  fun n =>
    if n = "sql_tool" then some toolRaising
    else if n = "document_tool" then some toolFine
    else none

/-- A concrete selection of the succeeding document tool. -/
def tcDoc : ToolSelection := ⟨"call-2", "document_tool", "policy"⟩

/-- C4 witness: with the raising sql adapter dispatched alongside the
succeeding document adapter, the first result carries the error text,
every position equals its own independent result, siblings are
catalog-change-invariant, and the buffer is folded into history. -/
theorem c4_witness :
    (execute_calls tdMixed (dispatch_calls [tcSql, tcDoc]))[0]?
      = some ⟨Role.tool, "Error executing sql_tool: boom",
          some "sql_tool", toolKwargs tcSql⟩
    ∧ (∀ j : Nat, (execute_calls tdMixed (dispatch_calls [tcSql, tcDoc]))[j]?
        = (([tcSql, tcDoc])[j]?).map (call_tool tdMixed))
    ∧ (∀ (td2 : ToolsDict) (tc2 : ToolSelection), tc2.tool_name ≠ "sql_tool" →
        (∀ n, n ≠ "sql_tool" → td2 n = tdMixed n) →
        call_tool td2 tc2 = call_tool tdMixed tc2)
    ∧ gather [] (dispatch_calls [tcSql, tcDoc]).num_tool_calls
        (execute_calls tdMixed (dispatch_calls [tcSql, tcDoc]))
      = some ([] ++ execute_calls tdMixed (dispatch_calls [tcSql, tcDoc])) :=
  c4_failure_isolation tdMixed [tcSql, tcDoc] 0 tcSql toolRaising "boom" []
    (by decide) rfl rfl rfl

/-- C7: whenever the chat history holds more than 20 messages, the
next-turn preparation truncates it to at most the leading system message
(keeping it exactly when the head is a system message, discarding
everything otherwise), and `prepare_chat` then produces a history that
is a system-role prefix followed by the new user message. -/
theorem c7_truncation (hist : List ChatMessage) (m : ChatMessage) (q : String)
    (hlen : 20 < hist.length) (hhead : hist.head? = some m) :
    truncate_history hist = (if m.role = Role.system then [m] else [])
    ∧ prepare_chat (truncate_history hist) (some q)
        = Except.ok ((if m.role = Role.system then [m] else [systemMessage])
            ++ [userMessage q])
    ∧ ∀ p ∈ (if m.role = Role.system then [m] else [systemMessage]),
        p.role = Role.system := by
  rcases hist with - | ⟨a, t⟩
  · simp at hlen
  · have hm : a = m := by simpa using hhead
    subst hm
    have ht : truncate_history (a :: t)
        = if a.role = Role.system then [a] else [] := by
      unfold truncate_history
      rw [if_pos hlen]
    by_cases hr : a.role = Role.system
    · refine ⟨by simp [ht, hr], ?_, ?_⟩
      · simp [ht, hr, prepare_chat, prepared]
      · intro p hp
        simp [hr] at hp
        rw [hp, hr]
    · refine ⟨by simp [ht, hr], ?_, ?_⟩
      · simp [ht, hr, prepare_chat, prepared]
      · intro p hp
        simp [hr] at hp
        rw [hp]
        rfl

/-- A 21-message history headed by a non-system message, for the
truncation witness. -/
def longHistory : List ChatMessage :=
  userMessage "x" :: List.replicate 20 (userMessage "x")

/-- C7 witness: the 21-message history with a non-system head is
truncated to nothing and the next preparation yields exactly the system
message followed by the new user message. -/
theorem c7_witness :
    truncate_history longHistory = []
    ∧ prepare_chat (truncate_history longHistory) (some "q")
        = Except.ok ([systemMessage] ++ [userMessage "q"])
    ∧ ∀ p ∈ [systemMessage], p.role = Role.system :=
  c7_truncation longHistory (userMessage "x") "q" (by decide) rfl

end RouterWorkflow
